import Mathlib

/-!
Verification of the FBI hate-crime table preprocessing scripts
(scripts/fbi/hate_crime/table5/preprocess.py and table8/preprocess.py).

Python dictionaries are embedded as association lists in insertion order
with Python dict semantics: lookup returns the first binding, insertion
replaces an existing binding in place or appends a fresh one at the end.
Fallible Python operations (KeyError, ValueError from list.remove,
pandas column-length mismatch) are embedded in the Option monad.
-/

set_option autoImplicit false

namespace HateCrime

/-- A Python dict with string keys and string values, in insertion order. -/
abbrev Dict := List (String × String)

/-- First-binding lookup, as Python dict subscripting / dict.get. -/
def alookup {α : Type} : List (String × α) → String → Option α
  | [], _ => none
  | (k, v) :: rest, key => if k = key then some v else alookup rest key

/-- Python `key in dict`. -/
def dcontains (d : Dict) (k : String) : Bool :=
  (alookup d k).isSome

/-- Python `d[k] = v`: replace the existing binding in place, else append. -/
def dinsert : Dict → String → String → Dict
  | [], k, v => [(k, v)]
  | (k0, v0) :: rest, k, v =>
    if k0 = k then (k, v) :: rest else (k0, v0) :: dinsert rest k v

/-- Python `d.update(kvs)`: insert each binding of kvs in order. -/
def dupdate (d : Dict) (kvs : Dict) : Dict :=
  kvs.foldl (fun a kv => dinsert a kv.1 kv.2) d

/-- Python `del d[k]` on a dict with unique keys (drops every binding of k). -/
def derase (d : Dict) (k : String) : Dict :=
  d.filter (fun kv => kv.1 ≠ k)

/-- Byte-wise order on keys, used to canonicalise a property set. -/
def keyLe : List Char → List Char → Bool
  | [], _ => true
  | _ :: _, [] => false
  | a :: as, b :: bs =>
    if a.toNat < b.toNat then true
    else if b.toNat < a.toNat then false
    else keyLe as bs

def insertSortedByKey (kv : String × String) :
    List (String × String) → List (String × String)
  | [] => [kv]
  | kv0 :: rest =>
    if keyLe kv.1.toList kv0.1.toList then kv :: kv0 :: rest
    else kv0 :: insertSortedByKey kv rest

def sortByKey (l : List (String × String)) : List (String × String) :=
  l.foldr insertSortedByKey []

/-- The property/value pairs of a statvar that take part in dcid generation:
the bindings whose property is not in the ignore list. -/
def keptPairs (statvar : Dict) (ignore_props : List String) : Dict :=
  statvar.filter (fun kv => kv.1 ∉ ignore_props)

/-- Modelled from the spec: util/statvar_dcid_generator.get_statvar_dcid is
not under src/. The spec requires a deterministic identifier that is
injective with respect to the non-ignored property/value set and on which
ignored properties never have any influence. We model it as a canonical
serialization of the key-sorted non-ignored bindings. -/
def get_statvar_dcid (statvar : Dict) (ignore_props : List String) : String :=
  String.intercalate "/"
    ((sortByKey (keptPairs statvar ignore_props)).map (fun kv => kv.1 ++ "=" ++ kv.2))

/-- One entry of the configuration dpv list: a controlling property and a
dependent property with its required value (null encoded as none). -/
structure DpvRule where
  cprop : String
  prop : String
  val : Option String
deriving DecidableEq, Inhabited

/-- The read-only configuration document loaded from config.json. -/
structure Config where
  populationType : List (String × Dict)
  pvs : List (String × Dict)
  dpv : List DpvRule
deriving DecidableEq, Inhabited

/-- Embedding of _get_dpv: the properties to ignore when generating the dcid.
The loop appends spec.dpv.prop whenever spec.cprop is a key of the statvar
and the statvar's current value of the dependent property (None when absent)
equals the rule's required value. -/
def getDpv (statvar : Dict) (config : Config) : List String :=
  (config.dpv.filter (fun s =>
      dcontains statvar s.cprop && decide (s.val = alookup statvar s.prop))).map
    (fun s => s.prop)

/-- Embedding of _update_statvar_dcids: assign each statvar its dcid under
the Node key, ignoring dependent properties. -/
def updateStatvarDcids (statvar_list : List Dict) (config : Config) : List Dict :=
  statvar_list.map (fun d => dinsert d "Node" (get_statvar_dcid d (getDpv d config)))

/-- Embedding of _update_statvars: add the key:value pairs to each statvar. -/
def updateStatvars (statvar_list : List Dict) (key_value : Dict) : List Dict :=
  statvar_list.map (fun d => dupdate d key_value)

/-! ### The bias-motivation label cleanup and _clean_dataframe -/

/-- Regex replace of every occurrence of a digit or colon with nothing:
df.replace with pattern digit-or-colon-run and empty replacement. -/
def removeDigitColon (s : String) : String :=
  String.mk (s.toList.filter (fun c => !(c.isDigit || c == ':')))

/-- Replace each maximal whitespace run by a single space; the flag records
whether the previous character was part of a whitespace run. -/
def collapseWsAux : Bool → List Char → List Char
  | _, [] => []
  | prevWs, c :: rest =>
    if c.isWhitespace then
      if prevWs then collapseWsAux true rest
      else ' ' :: collapseWsAux true rest
    else c :: collapseWsAux false rest

/-- Regex replace of every whitespace run with a single space. -/
def collapseWhitespace (s : String) : String :=
  String.mk (collapseWsAux false s.toList)

/-- Python str.strip: drop leading and trailing whitespace. -/
def stripEnds (s : String) : String :=
  String.mk (((s.toList.dropWhile Char.isWhitespace).reverse.dropWhile
    Char.isWhitespace).reverse)

/-- The three-step cleanup _clean_dataframe applies to each value of the
bias motivation column, in source order: remove digit/colon sequences,
collapse whitespace runs, strip the ends. -/
def cleanBiasLabel (s : String) : String :=
  stripEnds (collapseWhitespace (removeDigitColon s))

/-- The years of table5 _clean_dataframe's first branch. -/
def table5LaterYears : List String :=
  ["2020", "2019", "2018", "2017", "2016", "2015", "2014", "2013"]

/-- The 14 canonical column names table5 assigns for 2013 through 2020. -/
def table5ColumnsLater : List String :=
  ["bias motivation", "total offenses", "white", "black or african american",
   "american indian or alaska native", "asian",
   "native hawaiian or other pacific islander", "multiple races",
   "unknown race", "hispanic or latino", "not hispanic or latino",
   "group of multiple ethnicities", "unknown ethnicity", "unknown offender"]

/-- The 9 canonical column names table5 assigns in the else branch. -/
def table5ColumnsEarly : List String :=
  ["bias motivation", "total offenses", "white", "black or african american",
   "american indian or alaska native", "asian or pacific islander",
   "multiple races", "unknown race", "unknown offender"]

/-- The year keys of table5's YEARWISE_CONFIG. -/
def yearwiseConfigYears : List String :=
  ["2020", "2019", "2018", "2017", "2016", "2015", "2014", "2013", "2012",
   "2011", "2010", "2009", "2008", "2007", "2006", "2005", "2004"]

/-- The parts of a pandas dataframe the cleaning step observes: its column
labels and the values of its bias motivation column. -/
structure DataFrame where
  columns : List String
  biasMotivation : List String
deriving DecidableEq, Inhabited

/-- Embedding of table5 _clean_dataframe. The column relabeling dispatches
only on membership of the year in the 2013-2020 list; every other year
takes the else branch. Assigning df.columns raises in pandas when the name
count differs from the frame's column count, hence the Option. The bias
motivation column then gets the three-step label cleanup. -/
def cleanDataframe (df : DataFrame) (year : String) : Option DataFrame :=
  let names :=
    if year ∈ table5LaterYears then table5ColumnsLater else table5ColumnsEarly
  if df.columns.length = names.length then
    some { columns := names,
           biasMotivation := df.biasMotivation.map cleanBiasLabel }
  else none

/-! ### The deduplicating metadata serializer _create_mcf -/

/-- The body lines of one metadata node: every binding except Node,
in insertion order, rendered with the dcs prefix. -/
def svBodyLines (sv : Dict) : List String :=
  (sv.filter (fun kv => kv.1 ≠ "Node")).map (fun kv => kv.1 ++ ": dcs:" ++ kv.2)

/-- The text block _create_mcf appends for one statvar: the header line,
a newline, the joined body lines, and the final two newlines. -/
def svBlock (sv : Dict) : String :=
  "Node: dcid:" ++ (alookup sv "Node").getD "" ++ "\n" ++
    String.intercalate "\n" (svBodyLines sv) ++ "\n\n"

/-- The accumulator loop of _create_mcf: dcid_set is the list of dcids
already emitted, acc the text built so far.  Reading sv with no Node key
raises a KeyError, hence the Option. -/
def createMcfGo : List String → String → List Dict → Option String
  | _, acc, [] => some acc
  | seen, acc, sv :: rest =>
    match alookup sv "Node" with
    | none => none
    | some dcid =>
      if dcid ∈ seen then createMcfGo seen acc rest
      else createMcfGo (dcid :: seen) (acc ++ svBlock sv) rest

/-- Embedding of _create_mcf, returning the full text written to the
mcf file. -/
def createMcf (stat_vars : List Dict) : Option String :=
  createMcfGo [] "" stat_vars

/-- Specified from the spec text for comparison: keep, of the accumulated
statvars, the first bearer of each distinct identifier, in first-seen
order. -/
def firstSeenByNode : List String → List Dict → List Dict
  | _, [] => []
  | seen, sv :: rest =>
    let d := (alookup sv "Node").getD ""
    if d ∈ seen then firstSeenByNode seen rest
    else sv :: firstSeenByNode (d :: seen) rest

/-- Concatenation of a list of strings in order. -/
def concatAll : List String → String
  | [] => ""
  | s :: rest => s ++ concatAll rest

/-- Specified from the spec text for comparison: the whole metadata file is
the concatenation of one block per retained statvar. -/
def mcfSpec (stat_vars : List Dict) : String :=
  concatAll ((firstSeenByNode [] stat_vars).map svBlock)

/-- First-occurrence deduplication of a list of identifiers, keeping
first-seen order. -/
def dedupFirstSeen : List String → List String → List String
  | _, [] => []
  | seen, d :: rest =>
    if d ∈ seen then dedupFirstSeen seen rest
    else d :: dedupFirstSeen (d :: seen) rest

/-- The Node identifier of a statvar, for statement purposes. -/
def nodeOf (sv : Dict) : String :=
  (alookup sv "Node").getD ""

/-! ### The observation writer _write_output_csv and _create_csv_mcf -/

/-- One data row of the cleaned CSV, as written by _write_row. -/
structure OutRow where
  year : String
  statVar : String
  quantity : String
deriving DecidableEq, Inhabited

/-- Python list.remove: drop the first occurrence of y, raising a
ValueError when y is absent. -/
def pyRemove : List String → String → Option (List String)
  | [], _ => none
  | x :: rest, y =>
    if x = y then some rest else (pyRemove rest y).map (fun t => x :: t)

/-- A loop that collects the result of a fallible computation for each list
element in order, failing as soon as one element fails. -/
def collectSome {α β : Type} (f : α → Option β) : List α → Option (List β)
  | [] => some []
  | a :: rest => do
    let b ← f a
    let bs ← collectSome f rest
    pure (b :: bs)

/-- The body of the per-row loop of table5 _write_output_csv: look up the
row's bias motivation in config pvs, copy the populationType template of
each fact column, merge the bias key/values into every copy, assign dcids,
and emit one output row per fact column carrying the row's Year, the
statvar's Node and the row's raw value for that column. Any failing dict
subscript is a KeyError. -/
def processRow (config : Config) (columns : List String) (crime : Dict) :
    Option (List OutRow × List Dict) := do
  let bias ← alookup crime "bias motivation"
  let bias_kv ← alookup config.pvs bias
  let templates ← collectSome (fun c => alookup config.populationType c) columns
  let merged := updateStatvars templates bias_kv
  let statvar_list := updateStatvarDcids merged config
  let outRows ← collectSome (fun (p : String × Dict) => do
    let y ← alookup crime "Year"
    let node ← alookup p.2 "Node"
    let q ← alookup crime p.1
    pure (OutRow.mk y node q)) (columns.zip statvar_list)
  pure (outRows, statvar_list)

/-- The row loop of _write_output_csv: output rows are written in source
row order and the per-row statvar lists are accumulated in the same
order. -/
def writeRowsGo (config : Config) (columns : List String) :
    List Dict → Option (List OutRow × List Dict)
  | [] => some ([], [])
  | crime :: rest => do
    let hd ← processRow config columns crime
    let tl ← writeRowsGo config columns rest
    pure (hd.1 ++ tl.1, hd.2 ++ tl.2)

/-- Embedding of table5 _write_output_csv: the fact columns are the reader
field names with the first occurrences of the bias motivation and Year
labels removed, then every row is expanded. Returns the rows written to
the cleaned CSV and the statvars returned to the caller. -/
def writeOutputCsv (fieldnames : List String) (rows : List Dict)
    (config : Config) : Option (List OutRow × List Dict) := do
  let cols1 ← pyRemove fieldnames "bias motivation"
  let columns ← pyRemove cols1 "Year"
  writeRowsGo config columns rows

/-- Embedding of _create_csv_mcf: process each per-year CSV file in order
with the shared writer, accumulating the written rows and the statvars. -/
def createCsvMcf (files : List (List String × List Dict)) (config : Config) :
    Option (List OutRow × List Dict) :=
  match files with
  | [] => some ([], [])
  | (fieldnames, rows) :: rest => do
    let hd ← writeOutputCsv fieldnames rows config
    let tl ← createCsvMcf rest config
    pure (hd.1 ++ tl.1, hd.2 ++ tl.2)

/-! ### Explicit descriptions of the successful computations, used to state
the functional-correctness claims -/

/-- Decidable per-row success condition: the row has a bias motivation
label mapped in config pvs, a Year value, a value for every fact column,
and every fact column has a populationType template. -/
def rowOk (config : Config) (columns : List String) (crime : Dict) : Bool :=
  ((alookup crime "bias motivation").bind (alookup config.pvs)).isSome &&
  (alookup crime "Year").isSome &&
  columns.all (fun c =>
    (alookup crime c).isSome && (alookup config.populationType c).isSome)

/-- The bias-motivation key/value pairs of a row, defaulting to the empty
dict (the default is never reached when rowOk holds). -/
def biasKvOf (config : Config) (crime : Dict) : Dict :=
  ((alookup crime "bias motivation").bind (alookup config.pvs)).getD []

/-- The statvar resolved for one fact column before dcid assignment: the
column's template copy merged with the row's bias key/values. -/
def mergedStatvar (config : Config) (bias_kv : Dict) (c : String) : Dict :=
  dupdate ((alookup config.populationType c).getD []) bias_kv

/-- The statvar resolved for one fact column, with its Node identifier. -/
def resolvedStatvar (config : Config) (bias_kv : Dict) (c : String) : Dict :=
  let sv := mergedStatvar config bias_kv c
  dinsert sv "Node" (get_statvar_dcid sv (getDpv sv config))

/-- The identifier assigned for one fact column of one row. -/
def resolvedDcid (config : Config) (bias_kv : Dict) (c : String) : String :=
  get_statvar_dcid (mergedStatvar config bias_kv c)
    (getDpv (mergedStatvar config bias_kv c) config)

/-- The observation rows one source row expands to: one per fact column in
canonical column order. -/
def expectedRowObs (config : Config) (columns : List String) (crime : Dict) :
    List OutRow :=
  columns.map (fun c =>
    OutRow.mk ((alookup crime "Year").getD "")
      (resolvedDcid config (biasKvOf config crime) c)
      ((alookup crime c).getD ""))

/-- The statvars one source row contributes, one per fact column. -/
def expectedRowSvs (config : Config) (columns : List String) (crime : Dict) :
    List Dict :=
  columns.map (fun c => resolvedStatvar config (biasKvOf config crime) c)

/-- The fact columns _write_output_csv computes from the reader field
names: first occurrences of the bias motivation and Year labels removed. -/
def factColumnsOf (fieldnames : List String) : Option (List String) :=
  (pyRemove fieldnames "bias motivation").bind (fun c1 => pyRemove c1 "Year")

/-- Decidable success condition for one per-year CSV file: the field names
contain the two dimension labels and every row satisfies rowOk. -/
def fileOk (config : Config) (file : List String × List Dict) : Bool :=
  match factColumnsOf file.1 with
  | none => false
  | some cols => file.2.all (fun crime => rowOk config cols crime)

/-- The observation rows one per-year file contributes to the cleaned CSV. -/
def expectedFileObs (config : Config) (file : List String × List Dict) :
    List OutRow :=
  file.2.flatMap (expectedRowObs config ((factColumnsOf file.1).getD []))

/-- The statvars one per-year file contributes to the accumulator. -/
def expectedFileSvs (config : Config) (file : List String × List Dict) :
    List Dict :=
  file.2.flatMap (expectedRowSvs config ((factColumnsOf file.1).getD []))

/-- A sample configuration for concrete runs. -/
def sampleConfig : Config :=
  Config.mk [("colA", [("populationType", "CriminalIncidents")])]
    [("Religion", [("biasMotivation", "religion")])] []

/-- A sample canonical CSV row. -/
def sampleRow : Dict :=
  [("Year", "2020"), ("bias motivation", "Religion"), ("colA", "12")]

/-- A second sample canonical CSV row. -/
def sampleRow2 : Dict :=
  [("Year", "2019"), ("bias motivation", "Religion"), ("colA", "7")]

/-! ### Association-list lemmas -/

theorem alookup_dinsert_self (d : Dict) (k v : String) :
    alookup (dinsert d k v) k = some v := by
  induction d with
  | nil => simp [dinsert, alookup]
  | cons kv rest ih =>
    obtain ⟨k0, v0⟩ := kv
    by_cases h : k0 = k
    · simp [dinsert, h, alookup]
    · simp [dinsert, h, alookup, ih]

theorem alookup_derase (d : Dict) (k c : String) :
    alookup (derase d k) c = if c = k then none else alookup d c := by
  induction d with
  | nil => simp [derase, alookup]
  | cons kv rest ih =>
    obtain ⟨k0, v0⟩ := kv
    by_cases h : k0 = k
    · by_cases hc : c = k
      · simp_all [derase, List.filter_cons, alookup]
      · have hkc : ¬k = c := fun hh => hc hh.symm
        simp_all [derase, List.filter_cons, alookup]
    · by_cases hc : c = k0 <;> by_cases hck : c = k <;>
        simp_all [derase, List.filter_cons, alookup]

theorem dcontains_derase (d : Dict) (k c : String) :
    dcontains (derase d k) c = if c = k then false else dcontains d c := by
  simp only [dcontains, alookup_derase]
  by_cases hc : c = k <;> simp [hc]

/-! ### Claim C6: the category-label cleanup -/

/-- C6: the category-label cleanup applied by _clean_dataframe maps the
input label with the footnote marker and extra whitespace to the
normalized label: digit and colon characters are removed, whitespace runs
are collapsed to a single space, and the ends are trimmed. -/
theorem biasLabelCleanup_example :
    cleanBiasLabel "3:  Race / Ethnicity   motivation" =
      "Race / Ethnicity motivation" ∧
    cleanDataframe
        (DataFrame.mk table5ColumnsLater ["3:  Race / Ethnicity   motivation"])
        "2020" =
      some (DataFrame.mk table5ColumnsLater ["Race / Ethnicity motivation"]) := by
  constructor <;> decide

/-! ### Claim C3: unrecognized years and _clean_dataframe -/

/-- C3 as stated is false on the code: the year "1999" is not a key of
YEARWISE_CONFIG, yet _clean_dataframe does not raise for it; the year
dispatch falls into the else branch and silently assigns the early-years
nine-column layout. -/
theorem cleanDataframe_unknownYear_counterexample :
    "1999" ∉ yearwiseConfigYears ∧
    cleanDataframe
        (DataFrame.mk ["c1", "c2", "c3", "c4", "c5", "c6", "c7", "c8", "c9"]
          ["Anti-Jewish"]) "1999" =
      some (DataFrame.mk table5ColumnsEarly ["Anti-Jewish"]) := by
  constructor <;> decide

/-- C3 amended: for every year outside the 2013-2020 branch list, whether
enumerated in YEARWISE_CONFIG or not, _clean_dataframe silently applies
the early-years nine-column layout whenever the frame has nine columns;
the year dispatch itself never raises. -/
theorem cleanDataframe_unknownYear_amended (df : DataFrame) (year : String)
    (hy : year ∉ table5LaterYears) (hl : df.columns.length = 9) :
    cleanDataframe df year =
      some (DataFrame.mk table5ColumnsEarly
        (df.biasMotivation.map cleanBiasLabel)) := by
  simp [cleanDataframe, hy, hl, table5ColumnsEarly]

theorem cleanDataframe_unknownYear_amended_witness :
    "1999" ∉ table5LaterYears ∧
    (DataFrame.mk ["c1", "c2", "c3", "c4", "c5", "c6", "c7", "c8", "c9"]
      ["8: Anti-Islamic"]).columns.length = 9 ∧
    cleanDataframe
        (DataFrame.mk ["c1", "c2", "c3", "c4", "c5", "c6", "c7", "c8", "c9"]
          ["8: Anti-Islamic"]) "1999" =
      some (DataFrame.mk table5ColumnsEarly
        (["8: Anti-Islamic"].map cleanBiasLabel)) :=
  ⟨by decide, by decide,
    cleanDataframe_unknownYear_amended
      (DataFrame.mk ["c1", "c2", "c3", "c4", "c5", "c6", "c7", "c8", "c9"]
        ["8: Anti-Islamic"]) "1999" (by decide) (by decide)⟩

/-! ### Characterizing the successful runs of _write_output_csv -/

theorem collectSome_eq_some {α β : Type} (f : α → Option β) (g : α → β)
    (l : List α) (h : ∀ a ∈ l, f a = some (g a)) :
    collectSome f l = some (l.map g) := by
  induction l with
  | nil => simp [collectSome]
  | cons a rest ih =>
    simp [collectSome, h a (by simp), ih (fun b hb => h b (by simp [hb]))]

theorem zip_map_self {α β : Type} (l : List α) (g : α → β) :
    l.zip (l.map g) = l.map (fun a => (a, g a)) := by
  induction l with
  | nil => rfl
  | cons a rest ih => simp [ih]

theorem nodeOf_resolvedStatvar (config : Config) (bias_kv : Dict) (c : String) :
    nodeOf (resolvedStatvar config bias_kv c) = resolvedDcid config bias_kv c := by
  simp [nodeOf, resolvedStatvar, resolvedDcid, alookup_dinsert_self]

theorem collectSome_pair_eq {α β γ : Type} (F : α × β → Option γ)
    (G : α → β) (g : α → γ) (l : List α)
    (h : ∀ a ∈ l, F (a, G a) = some (g a)) :
    collectSome F (l.zip (l.map G)) = some (l.map g) := by
  rw [zip_map_self]
  induction l with
  | nil => rfl
  | cons a rest ih =>
    simp [collectSome, h a (by simp), ih (fun b hb => h b (by simp [hb]))]

theorem processRow_eq (config : Config) (cols : List String) (crime : Dict)
    (h : rowOk config cols crime = true) :
    processRow config cols crime =
      some (expectedRowObs config cols crime,
            expectedRowSvs config cols crime) := by
  rw [rowOk] at h
  simp only [Bool.and_eq_true, List.all_eq_true] at h
  obtain ⟨⟨hbk, hy⟩, hcols⟩ := h
  obtain ⟨b, hb⟩ : ∃ b, alookup crime "bias motivation" = some b := by
    cases hbb : alookup crime "bias motivation" with
    | none => rw [hbb] at hbk; simp at hbk
    | some b => exact ⟨b, rfl⟩
  rw [hb] at hbk
  simp only [Option.some_bind] at hbk
  obtain ⟨kv, hkv⟩ := Option.isSome_iff_exists.mp hbk
  obtain ⟨y, hyy⟩ := Option.isSome_iff_exists.mp hy
  have htempl : collectSome (fun c => alookup config.populationType c) cols =
      some (cols.map (fun c => (alookup config.populationType c).getD [])) := by
    refine collectSome_eq_some _ _ _ ?_
    intro c hc
    obtain ⟨t, ht⟩ := Option.isSome_iff_exists.mp (hcols c hc).2
    simp [ht]
  have hsvlist :
      updateStatvarDcids
          (updateStatvars
            (cols.map (fun c => (alookup config.populationType c).getD []))
            kv) config =
        cols.map (fun c => resolvedStatvar config kv c) := by
    simp only [updateStatvars, updateStatvarDcids, List.map_map]
    refine List.map_congr_left ?_
    intro c _
    simp [Function.comp, resolvedStatvar, mergedStatvar]
  have hmapped : ∀ c ∈ cols, (do
      let y ← alookup crime "Year"
      let node ← alookup (resolvedStatvar config kv c) "Node"
      let q ← alookup crime c
      pure (OutRow.mk y node q)) =
      some (OutRow.mk y (resolvedDcid config kv c)
        ((alookup crime c).getD "")) := by
    intro c hc
    obtain ⟨q, hq⟩ := Option.isSome_iff_exists.mp (hcols c hc).1
    have hnode : alookup (resolvedStatvar config kv c) "Node" =
        some (resolvedDcid config kv c) := by
      simp [resolvedStatvar, resolvedDcid, alookup_dinsert_self]
    simp [hyy, hnode, hq]
  have hout := collectSome_pair_eq
    (fun (p : String × Dict) => do
      let y ← alookup crime "Year"
      let node ← alookup p.2 "Node"
      let q ← alookup crime p.1
      pure (OutRow.mk y node q))
    (fun c => resolvedStatvar config kv c)
    (fun c => OutRow.mk y (resolvedDcid config kv c)
      ((alookup crime c).getD ""))
    cols hmapped
  have hbkv : biasKvOf config crime = kv := by
    simp [biasKvOf, hb, hkv]
  simp only [Option.pure_def, Option.bind_eq_bind] at hout
  simp only [processRow, Option.pure_def, Option.bind_eq_bind, hb, hkv,
    htempl, Option.some_bind]
  rw [hsvlist, hout]
  simp only [Option.some_bind]
  simp [expectedRowObs, expectedRowSvs, hbkv, hyy]

theorem writeRowsGo_eq (config : Config) (cols : List String)
    (rows : List Dict) (h : ∀ crime ∈ rows, rowOk config cols crime = true) :
    writeRowsGo config cols rows =
      some (rows.flatMap (expectedRowObs config cols),
            rows.flatMap (expectedRowSvs config cols)) := by
  induction rows with
  | nil => simp [writeRowsGo]
  | cons crime rest ih =>
    simp [writeRowsGo, processRow_eq config cols crime (h crime (by simp)),
      ih (fun u hu => h u (by simp [hu]))]

theorem writeOutputCsv_eq (fieldnames : List String) (rows : List Dict)
    (config : Config) (cols1 cols : List String)
    (h1 : pyRemove fieldnames "bias motivation" = some cols1)
    (h2 : pyRemove cols1 "Year" = some cols)
    (h : ∀ crime ∈ rows, rowOk config cols crime = true) :
    writeOutputCsv fieldnames rows config =
      some (rows.flatMap (expectedRowObs config cols),
            rows.flatMap (expectedRowSvs config cols)) := by
  simp [writeOutputCsv, h1, h2, writeRowsGo_eq config cols rows h]

theorem map_statVar_expectedRowObs (config : Config) (cols : List String)
    (crime : Dict) :
    (expectedRowObs config cols crime).map OutRow.statVar =
      cols.map (resolvedDcid config (biasKvOf config crime)) := by
  simp [expectedRowObs, List.map_map, Function.comp]

theorem map_nodeOf_expectedRowSvs (config : Config) (cols : List String)
    (crime : Dict) :
    (expectedRowSvs config cols crime).map nodeOf =
      cols.map (resolvedDcid config (biasKvOf config crime)) := by
  simp [expectedRowSvs, List.map_map, Function.comp, nodeOf_resolvedStatvar]

theorem flatMap_obs_statVar_eq (config : Config) (cols : List String)
    (rows : List Dict) :
    (rows.flatMap (expectedRowObs config cols)).map OutRow.statVar =
      (rows.flatMap (expectedRowSvs config cols)).map nodeOf := by
  induction rows with
  | nil => rfl
  | cons r rest ih =>
    simp only [List.flatMap_cons, List.map_append, ih,
      map_statVar_expectedRowObs, map_nodeOf_expectedRowSvs]

/-! ### Claim C4: the row expansion of _write_output_csv -/

/-- C4: under the per-row success conditions, _write_output_csv emits the
row-order concatenation of per-row blocks, one observation per fact
column in canonical column order, each carrying that row's Year value,
the resolved statvar's Node identifier and the row's quantity value for
that column passed through unchanged; the emitted data row count is
exactly R times F, and the StatVar field of every observation is the Node
identifier of the corresponding accumulated statvar. -/
theorem rowExpansion (fieldnames : List String) (rows : List Dict)
    (config : Config) (cols1 cols : List String)
    (h1 : pyRemove fieldnames "bias motivation" = some cols1)
    (h2 : pyRemove cols1 "Year" = some cols)
    (h : ∀ crime ∈ rows, rowOk config cols crime = true) :
    writeOutputCsv fieldnames rows config =
      some (rows.flatMap (expectedRowObs config cols),
            rows.flatMap (expectedRowSvs config cols)) ∧
    (rows.flatMap (expectedRowObs config cols)).length =
      rows.length * cols.length ∧
    (rows.flatMap (expectedRowObs config cols)).map OutRow.statVar =
      (rows.flatMap (expectedRowSvs config cols)).map nodeOf := by
  refine ⟨writeOutputCsv_eq fieldnames rows config cols1 cols h1 h2 h, ?_,
    flatMap_obs_statVar_eq config cols rows⟩
  have hlen : ∀ crime, (expectedRowObs config cols crime).length = cols.length :=
    fun crime => by simp [expectedRowObs]
  induction rows with
  | nil => simp
  | cons r rest ih =>
    simp only [List.flatMap_cons, List.length_append, hlen, List.length_cons]
    rw [ih (fun u hu => h u (List.mem_cons_of_mem _ hu)), Nat.add_mul,
      Nat.one_mul, Nat.add_comm]

theorem rowExpansion_witness :
    pyRemove ["Year", "bias motivation", "colA"] "bias motivation" =
      some ["Year", "colA"] ∧
    pyRemove ["Year", "colA"] "Year" = some ["colA"] ∧
    rowOk sampleConfig ["colA"] sampleRow = true ∧
    (writeOutputCsv ["Year", "bias motivation", "colA"] [sampleRow]
        sampleConfig =
      some (([sampleRow]).flatMap (expectedRowObs sampleConfig ["colA"]),
            ([sampleRow]).flatMap (expectedRowSvs sampleConfig ["colA"])) ∧
    (([sampleRow]).flatMap (expectedRowObs sampleConfig ["colA"])).length =
      ([sampleRow] : List Dict).length * (["colA"] : List String).length ∧
    (([sampleRow]).flatMap (expectedRowObs sampleConfig ["colA"])).map
        OutRow.statVar =
      (([sampleRow]).flatMap (expectedRowSvs sampleConfig ["colA"])).map
        nodeOf) :=
  ⟨by decide, by decide, by decide,
    rowExpansion ["Year", "bias motivation", "colA"] [sampleRow] sampleConfig
      ["Year", "colA"] ["colA"] (by decide) (by decide) (by decide)⟩

/-! ### Claim C7: rows resolve independently of one another -/

/-- C7: row processing never changes the configuration or its templates:
each statvar is built from an independent copy of the column's template,
so the statvars and observations of a row list are the concatenation of
those of its parts, each row resolving from the same template contents as
it would alone. -/
theorem templateIsolation (fieldnames : List String) (rows1 rows2 : List Dict)
    (config : Config) (cols1 cols : List String)
    (h1 : pyRemove fieldnames "bias motivation" = some cols1)
    (h2 : pyRemove cols1 "Year" = some cols)
    (h : ∀ crime ∈ rows1 ++ rows2, rowOk config cols crime = true) :
    writeOutputCsv fieldnames (rows1 ++ rows2) config =
      some ((rows1.flatMap (expectedRowObs config cols)) ++
              rows2.flatMap (expectedRowObs config cols),
            (rows1.flatMap (expectedRowSvs config cols)) ++
              rows2.flatMap (expectedRowSvs config cols)) ∧
    writeOutputCsv fieldnames rows1 config =
      some (rows1.flatMap (expectedRowObs config cols),
            rows1.flatMap (expectedRowSvs config cols)) ∧
    writeOutputCsv fieldnames rows2 config =
      some (rows2.flatMap (expectedRowObs config cols),
            rows2.flatMap (expectedRowSvs config cols)) := by
  have ha : ∀ crime ∈ rows1, rowOk config cols crime = true :=
    fun u hu => h u (List.mem_append_left _ hu)
  have hb : ∀ crime ∈ rows2, rowOk config cols crime = true :=
    fun u hu => h u (List.mem_append_right _ hu)
  refine ⟨?_, writeOutputCsv_eq fieldnames rows1 config cols1 cols h1 h2 ha,
    writeOutputCsv_eq fieldnames rows2 config cols1 cols h1 h2 hb⟩
  rw [writeOutputCsv_eq fieldnames (rows1 ++ rows2) config cols1 cols h1 h2 h]
  simp [List.flatMap_append]

theorem templateIsolation_witness :
    pyRemove ["Year", "bias motivation", "colA"] "bias motivation" =
      some ["Year", "colA"] ∧
    pyRemove ["Year", "colA"] "Year" = some ["colA"] ∧
    (writeOutputCsv ["Year", "bias motivation", "colA"]
        ([sampleRow] ++ [sampleRow2]) sampleConfig =
      some ((([sampleRow]).flatMap (expectedRowObs sampleConfig ["colA"])) ++
              ([sampleRow2]).flatMap (expectedRowObs sampleConfig ["colA"]),
            (([sampleRow]).flatMap (expectedRowSvs sampleConfig ["colA"])) ++
              ([sampleRow2]).flatMap (expectedRowSvs sampleConfig ["colA"])) ∧
    writeOutputCsv ["Year", "bias motivation", "colA"] [sampleRow]
        sampleConfig =
      some (([sampleRow]).flatMap (expectedRowObs sampleConfig ["colA"]),
            ([sampleRow]).flatMap (expectedRowSvs sampleConfig ["colA"])) ∧
    writeOutputCsv ["Year", "bias motivation", "colA"] [sampleRow2]
        sampleConfig =
      some (([sampleRow2]).flatMap (expectedRowObs sampleConfig ["colA"]),
            ([sampleRow2]).flatMap (expectedRowSvs sampleConfig ["colA"]))) :=
  ⟨by decide, by decide,
    templateIsolation ["Year", "bias motivation", "colA"] [sampleRow]
      [sampleRow2] sampleConfig ["Year", "colA"] ["colA"]
      (by decide) (by decide) (by decide)⟩

/-! ### Claim C8: unmapped bias motivation labels abort the run -/

theorem processRow_none_unmapped (config : Config) (cols : List String)
    (crime : Dict) (b : String)
    (hb : alookup crime "bias motivation" = some b)
    (hpv : alookup config.pvs b = none) :
    processRow config cols crime = none := by
  simp [processRow, hb, hpv]

theorem writeRowsGo_none (config : Config) (cols : List String)
    (rows : List Dict) (crime : Dict) (hmem : crime ∈ rows)
    (hnone : processRow config cols crime = none) :
    writeRowsGo config cols rows = none := by
  induction rows with
  | nil => cases hmem
  | cons u rest ih =>
    rcases List.mem_cons.mp hmem with h | h
    · subst h
      simp [writeRowsGo, hnone]
    · cases hu : processRow config cols u with
      | none => simp [writeRowsGo, hu]
      | some p => simp [writeRowsGo, hu, ih h]

/-- C8: a row whose bias motivation label is not a key of config pvs makes
the whole _write_output_csv call fail (the KeyError propagates): the run
aborts instead of skipping the row or substituting default property/value
pairs. -/
theorem unmappedBiasAborts (fieldnames : List String) (rows : List Dict)
    (config : Config) (crime : Dict) (b : String) (hmem : crime ∈ rows)
    (hb : alookup crime "bias motivation" = some b)
    (hpv : alookup config.pvs b = none) :
    writeOutputCsv fieldnames rows config = none := by
  rw [writeOutputCsv]
  cases hc1 : pyRemove fieldnames "bias motivation" with
  | none => simp
  | some cols1 =>
    cases hc2 : pyRemove cols1 "Year" with
    | none => simp [hc2]
    | some cols =>
      simp [hc2, writeRowsGo_none config cols rows crime hmem
        (processRow_none_unmapped config cols crime b hb hpv)]

theorem unmappedBiasAborts_witness :
    [("Year", "2020"), ("bias motivation", "Atheism"), ("colA", "3")] ∈
      [[("Year", "2020"), ("bias motivation", "Atheism"), ("colA", "3")]] ∧
    alookup [("Year", "2020"), ("bias motivation", "Atheism"), ("colA", "3")]
      "bias motivation" = some "Atheism" ∧
    alookup sampleConfig.pvs "Atheism" = none ∧
    writeOutputCsv ["Year", "bias motivation", "colA"]
      [[("Year", "2020"), ("bias motivation", "Atheism"), ("colA", "3")]]
      sampleConfig = none :=
  ⟨by decide, by decide, by decide,
    unmappedBiasAborts ["Year", "bias motivation", "colA"]
      [[("Year", "2020"), ("bias motivation", "Atheism"), ("colA", "3")]]
      sampleConfig
      [("Year", "2020"), ("bias motivation", "Atheism"), ("colA", "3")]
      "Atheism" (by decide) (by decide) (by decide)⟩

/-! ### Claims C2 and C9: the metadata serializer -/

theorem createMcfGo_eq_spec (svs : List Dict) :
    ∀ (seen : List String) (acc : String),
      (∀ sv ∈ svs, (alookup sv "Node").isSome = true) →
      createMcfGo seen acc svs =
        some (acc ++ concatAll ((firstSeenByNode seen svs).map svBlock)) := by
  induction svs with
  | nil =>
    intro seen acc _
    simp [createMcfGo, firstSeenByNode, concatAll]
  | cons sv rest ih =>
    intro seen acc h
    obtain ⟨d, hd⟩ := Option.isSome_iff_exists.mp (h sv (by simp))
    have htail : ∀ u ∈ rest, (alookup u "Node").isSome = true := by
      intro u hu
      exact h u (by simp [hu])
    by_cases hmem : d ∈ seen
    · simp [createMcfGo, firstSeenByNode, hd, hmem, ih seen acc htail]
    · simp [createMcfGo, firstSeenByNode, hd, hmem, concatAll,
        ih (d :: seen) (acc ++ svBlock sv) htail, String.append_assoc]

theorem map_nodeOf_firstSeenByNode (svs : List Dict) :
    ∀ seen : List String,
      (firstSeenByNode seen svs).map nodeOf =
        dedupFirstSeen seen (svs.map nodeOf) := by
  induction svs with
  | nil => intro seen; simp [firstSeenByNode, dedupFirstSeen]
  | cons sv rest ih =>
    intro seen
    by_cases hmem : (alookup sv "Node").getD "" ∈ seen <;>
      simp [firstSeenByNode, dedupFirstSeen, nodeOf, hmem, ih]

theorem mem_dedupFirstSeen (l : List String) :
    ∀ (seen : List String) (x : String),
      x ∈ dedupFirstSeen seen l ↔ x ∉ seen ∧ x ∈ l := by
  induction l with
  | nil => intro seen x; simp [dedupFirstSeen]
  | cons d rest ih =>
    intro seen x
    by_cases hmem : d ∈ seen
    · rw [dedupFirstSeen, if_pos hmem, ih]
      constructor
      · rintro ⟨hxs, hxr⟩
        exact ⟨hxs, by simp [hxr]⟩
      · rintro ⟨hxs, hxr⟩
        rcases List.mem_cons.mp hxr with hxd | hxr
        · exact absurd (hxd ▸ hmem) hxs
        · exact ⟨hxs, hxr⟩
    · rw [dedupFirstSeen, if_neg hmem]
      constructor
      · intro hx
        rcases List.mem_cons.mp hx with hxd | hx
        · exact ⟨hxd ▸ hmem, by simp [hxd]⟩
        · obtain ⟨hxs, hxr⟩ := (ih (d :: seen) x).mp hx
          exact ⟨fun hh => hxs (by simp [hh]), by simp [hxr]⟩
      · rintro ⟨hxs, hxr⟩
        rcases List.mem_cons.mp hxr with hxd | hxr
        · simp [hxd]
        · by_cases hxd : x = d
          · simp [hxd]
          · exact List.mem_cons_of_mem _
              ((ih (d :: seen) x).mpr ⟨by simp [hxs, hxd], hxr⟩)

theorem nodup_dedupFirstSeen (l : List String) :
    ∀ seen : List String, (dedupFirstSeen seen l).Nodup := by
  induction l with
  | nil => intro seen; simp [dedupFirstSeen]
  | cons d rest ih =>
    intro seen
    by_cases hmem : d ∈ seen
    · rw [dedupFirstSeen, if_pos hmem]
      exact ih seen
    · rw [dedupFirstSeen, if_neg hmem]
      refine List.nodup_cons.mpr ⟨?_, ih (d :: seen)⟩
      intro hd
      exact ((mem_dedupFirstSeen rest (d :: seen) d).mp hd).1 (by simp)

/-- C2: for statvars all carrying a Node identifier, _create_mcf emits the
concatenation of one block per first-seen bearer of each distinct Node
identifier, in first-seen order; a block is the header line followed by
the remaining properties in insertion order with the dcs prefix, ending
in a newline and the single separating blank line.  The emitted header
identifiers are the first-occurrence deduplication of the statvars'
identifiers: without repetition and with exactly the identifiers that
occur. -/
theorem mcfSerialization (svs : List Dict)
    (h : ∀ sv ∈ svs, (alookup sv "Node").isSome = true) :
    createMcf svs = some (mcfSpec svs) ∧
    (firstSeenByNode [] svs).map nodeOf = dedupFirstSeen [] (svs.map nodeOf) ∧
    ((firstSeenByNode [] svs).map nodeOf).Nodup ∧
    ((firstSeenByNode [] svs).map nodeOf).toFinset =
      (svs.map nodeOf).toFinset := by
  refine ⟨?_, map_nodeOf_firstSeenByNode svs [], ?_, ?_⟩
  · rw [createMcf, createMcfGo_eq_spec svs [] "" h, mcfSpec]
    simp
  · rw [map_nodeOf_firstSeenByNode svs []]
    exact nodup_dedupFirstSeen (svs.map nodeOf) []
  · refine Finset.ext ?_
    intro d
    rw [List.mem_toFinset, List.mem_toFinset,
      map_nodeOf_firstSeenByNode svs [], mem_dedupFirstSeen]
    simp

theorem mcfSerialization_witness :
    (∀ sv ∈ [[("a", "1"), ("Node", "X")], [("b", "2"), ("Node", "X")],
        [("c", "3"), ("Node", "Y")]],
      (alookup sv "Node").isSome = true) ∧
    (createMcf [[("a", "1"), ("Node", "X")], [("b", "2"), ("Node", "X")],
        [("c", "3"), ("Node", "Y")]] =
      some (mcfSpec [[("a", "1"), ("Node", "X")], [("b", "2"), ("Node", "X")],
        [("c", "3"), ("Node", "Y")]]) ∧
      (firstSeenByNode [] [[("a", "1"), ("Node", "X")],
          [("b", "2"), ("Node", "X")], [("c", "3"), ("Node", "Y")]]).map nodeOf =
        dedupFirstSeen []
          (([[("a", "1"), ("Node", "X")], [("b", "2"), ("Node", "X")],
            [("c", "3"), ("Node", "Y")]]).map nodeOf) ∧
      ((firstSeenByNode [] [[("a", "1"), ("Node", "X")],
          [("b", "2"), ("Node", "X")], [("c", "3"), ("Node", "Y")]]).map
        nodeOf).Nodup ∧
      ((firstSeenByNode [] [[("a", "1"), ("Node", "X")],
          [("b", "2"), ("Node", "X")], [("c", "3"), ("Node", "Y")]]).map
        nodeOf).toFinset =
        (([[("a", "1"), ("Node", "X")], [("b", "2"), ("Node", "X")],
          [("c", "3"), ("Node", "Y")]]).map nodeOf).toFinset) :=
  ⟨by decide,
    mcfSerialization
      [[("a", "1"), ("Node", "X")], [("b", "2"), ("Node", "X")],
        [("c", "3"), ("Node", "Y")]] (by decide)⟩

theorem createMcfGo_skip (sv : Dict) (d : String)
    (hsv : alookup sv "Node" = some d) (rest : List Dict) :
    ∀ (pre : List Dict) (seen : List String) (acc : String),
      (d ∈ seen ∨ d ∈ pre.filterMap (fun u => alookup u "Node")) →
      createMcfGo seen acc (pre ++ sv :: rest) =
        createMcfGo seen acc (pre ++ rest) := by
  intro pre
  induction pre with
  | nil =>
    intro seen acc h
    rcases h with h | h
    · simp [createMcfGo, hsv, h]
    · simp at h
  | cons u pre ih =>
    intro seen acc h
    cases hu : alookup u "Node" with
    | none => simp [createMcfGo, hu]
    | some e =>
      have hmem : d ∈ seen ∨ d = e ∨
          d ∈ pre.filterMap (fun u => alookup u "Node") := by
        rcases h with h | h
        · exact Or.inl h
        · rcases List.mem_filterMap.mp h with ⟨w, hw, hwd⟩
          rcases List.mem_cons.mp hw with hwu | hw
          · subst hwu
            rw [hu] at hwd
            exact Or.inr (Or.inl (Option.some_injective _ hwd.symm))
          · exact Or.inr (Or.inr (List.mem_filterMap.mpr ⟨w, hw, hwd⟩))
      by_cases he : e ∈ seen
      · simp only [List.cons_append, createMcfGo, hu, if_pos he]
        refine ih seen acc ?_
        rcases hmem with h | h | h
        · exact Or.inl h
        · exact Or.inl (h ▸ he)
        · exact Or.inr h
      · simp only [List.cons_append, createMcfGo, hu, if_neg he]
        refine ih (e :: seen) (acc ++ svBlock u) ?_
        rcases hmem with h | h | h
        · exact Or.inl (by simp [h])
        · exact Or.inl (by simp [h])
        · exact Or.inr h

/-- C9: deduplication in _create_mcf looks only at the Node identifier: a
later statvar whose identifier already occurred among the earlier
statvars is silently dropped from the serialization, whatever its other
properties say, so the output of the run with it equals the output of the
run without it and no conflict is reported. -/
theorem dedupByIdentifierOnly (pre rest : List Dict) (sv : Dict) (d : String)
    (hsv : alookup sv "Node" = some d)
    (hdup : d ∈ pre.filterMap (fun u => alookup u "Node")) :
    createMcf (pre ++ sv :: rest) = createMcf (pre ++ rest) :=
  createMcfGo_skip sv d hsv rest pre [] "" (Or.inr hdup)

theorem dedupByIdentifierOnly_witness :
    alookup [("b", "2"), ("Node", "X")] "Node" = some "X" ∧
    "X" ∈ ([[("a", "1"), ("Node", "X")]]).filterMap
      (fun u => alookup u "Node") ∧
    createMcf ([[("a", "1"), ("Node", "X")]] ++
        [("b", "2"), ("Node", "X")] :: [[("c", "3"), ("Node", "Y")]]) =
      createMcf ([[("a", "1"), ("Node", "X")]] ++ [[("c", "3"), ("Node", "Y")]]) :=
  ⟨by decide, by decide,
    dedupByIdentifierOnly [[("a", "1"), ("Node", "X")]]
      [[("c", "3"), ("Node", "Y")]] [("b", "2"), ("Node", "X")] "X"
      (by decide) (by decide)⟩

/-! ### Claim C1: DPV exclusion and dcid stability -/

theorem mem_getDpv (s : Dict) (cfg : Config) (x : String) :
    x ∈ getDpv s cfg ↔
      ∃ r, r ∈ cfg.dpv ∧ r.prop = x ∧ dcontains s r.cprop = true ∧
        r.val = alookup s x := by
  simp only [getDpv, List.mem_map, List.mem_filter, Bool.and_eq_true,
    decide_eq_true_eq]
  constructor
  · rintro ⟨r, ⟨hr, hcp, hval⟩, hpx⟩
    subst hpx
    exact ⟨r, hr, rfl, hcp, hval⟩
  · rintro ⟨r, hr, hpx, hcp, hval⟩
    subst hpx
    exact ⟨r, ⟨hr, hcp, hval⟩, rfl⟩

/-- The modelled dcid generator honours its contract: the identifier is a
function of the non-ignored property/value bindings alone. -/
theorem get_statvar_dcid_congr (s1 s2 : Dict) (ign1 ign2 : List String)
    (h : keptPairs s1 ign1 = keptPairs s2 ign2) :
    get_statvar_dcid s1 ign1 = get_statvar_dcid s2 ign2 := by
  simp [get_statvar_dcid, h]

/-- Erasing a property that is no rule's controlling property changes
membership in the _get_dpv ignore list for no other property. -/
theorem mem_getDpv_derase (s : Dict) (cfg : Config) (Q w : String)
    (hnc : ∀ r ∈ cfg.dpv, r.cprop ≠ Q) (hw : w ≠ Q) :
    w ∈ getDpv (derase s Q) cfg ↔ w ∈ getDpv s cfg := by
  rw [mem_getDpv, mem_getDpv]
  constructor
  · rintro ⟨r, hr, hpx, hcp, hval⟩
    rw [dcontains_derase, if_neg (hnc r hr)] at hcp
    rw [alookup_derase, if_neg hw] at hval
    exact ⟨r, hr, hpx, hcp, hval⟩
  · rintro ⟨r, hr, hpx, hcp, hval⟩
    refine ⟨r, hr, hpx, ?_, ?_⟩
    · rw [dcontains_derase, if_neg (hnc r hr)]
      exact hcp
    · rw [alookup_derase, if_neg hw]
      exact hval

/-- C1 as stated is false on the code: with a second dpv rule whose
controlling property is the dependent property of the first, erasing the
dependent property changes which other properties are excluded, and the
spec-contracted identifier generator (injective in the non-ignored
bindings) must then produce different identifiers.  Concretely, with rules
(cprop a, prop b, val 2) and (cprop b, prop c, val 3), the statvar
a=1, b=2, c=3 resolves to a different identifier than its copy without
b, although the first rule matches exactly as the claim requires. -/
theorem dpvExclusion_counterexample :
    DpvRule.mk "a" "b" (some "2") ∈
      (Config.mk [] []
        [DpvRule.mk "a" "b" (some "2"), DpvRule.mk "b" "c" (some "3")]).dpv ∧
    dcontains [("a", "1"), ("b", "2"), ("c", "3")] "a" = true ∧
    alookup [("a", "1"), ("b", "2"), ("c", "3")] "b" = some "2" ∧
    get_statvar_dcid [("a", "1"), ("b", "2"), ("c", "3")]
        (getDpv [("a", "1"), ("b", "2"), ("c", "3")]
          (Config.mk [] []
            [DpvRule.mk "a" "b" (some "2"), DpvRule.mk "b" "c" (some "3")])) ≠
      get_statvar_dcid (derase [("a", "1"), ("b", "2"), ("c", "3")] "b")
        (getDpv (derase [("a", "1"), ("b", "2"), ("c", "3")] "b")
          (Config.mk [] []
            [DpvRule.mk "a" "b" (some "2"), DpvRule.mk "b" "c" (some "3")])) := by
  refine ⟨by decide, by decide, by decide, by decide⟩

/-- C1 amended: when additionally the dependent property Q is no rule's
controlling property, a statvar containing controlling property P and
dependent property Q with the rule's required value y has Q in its
_get_dpv ignore list, receives from _update_statvar_dcids the same Node
identifier as its otherwise-identical copy lacking Q entirely, and the
identifiers computed by the contracted generator agree. -/
theorem dpvExclusion_amended (cfg : Config) (s : Dict) (P Q y : String)
    (hrule : DpvRule.mk P Q (some y) ∈ cfg.dpv)
    (hP : dcontains s P = true) (hQ : alookup s Q = some y)
    (hnc : ∀ r ∈ cfg.dpv, r.cprop ≠ Q) :
    Q ∈ getDpv s cfg ∧
    get_statvar_dcid s (getDpv s cfg) =
      get_statvar_dcid (derase s Q) (getDpv (derase s Q) cfg) ∧
    (updateStatvarDcids [s] cfg).map nodeOf =
      (updateStatvarDcids [derase s Q] cfg).map nodeOf := by
  have hQmem : Q ∈ getDpv s cfg := by
    rw [mem_getDpv]
    exact ⟨DpvRule.mk P Q (some y), hrule, rfl, hP, hQ.symm⟩
  have hkept : keptPairs s (getDpv s cfg) =
      keptPairs (derase s Q) (getDpv (derase s Q) cfg) := by
    unfold keptPairs derase
    rw [List.filter_filter]
    refine List.filter_congr ?_
    intro kv hkv
    by_cases hkQ : kv.1 = Q
    · simp [hkQ, hQmem]
    · have : kv.1 ∈ getDpv (derase s Q) cfg ↔ kv.1 ∈ getDpv s cfg :=
        mem_getDpv_derase s cfg Q kv.1 hnc hkQ
      by_cases hmem : kv.1 ∈ getDpv s cfg
      · simp_all [derase]
      · simp_all [derase]
  have hdcid := get_statvar_dcid_congr s (derase s Q) (getDpv s cfg)
      (getDpv (derase s Q) cfg) hkept
  refine ⟨hQmem, hdcid, ?_⟩
  simp [updateStatvarDcids, nodeOf, alookup_dinsert_self, hdcid]

theorem dpvExclusion_amended_witness :
    (DpvRule.mk "biasMotivation" "victimType" (some "Person") ∈
      (Config.mk [] [] [DpvRule.mk "biasMotivation" "victimType" (some "Person")]).dpv) ∧
    dcontains [("populationType", "CriminalIncidents"),
      ("victimType", "Person"), ("biasMotivation", "religion")]
      "biasMotivation" = true ∧
    alookup [("populationType", "CriminalIncidents"),
      ("victimType", "Person"), ("biasMotivation", "religion")]
      "victimType" = some "Person" ∧
    ("victimType" ∈ getDpv
        [("populationType", "CriminalIncidents"), ("victimType", "Person"),
          ("biasMotivation", "religion")]
        (Config.mk [] [] [DpvRule.mk "biasMotivation" "victimType" (some "Person")]) ∧
      get_statvar_dcid
          [("populationType", "CriminalIncidents"), ("victimType", "Person"),
            ("biasMotivation", "religion")]
          (getDpv
            [("populationType", "CriminalIncidents"), ("victimType", "Person"),
              ("biasMotivation", "religion")]
            (Config.mk [] []
              [DpvRule.mk "biasMotivation" "victimType" (some "Person")])) =
        get_statvar_dcid
          (derase
            [("populationType", "CriminalIncidents"), ("victimType", "Person"),
              ("biasMotivation", "religion")] "victimType")
          (getDpv
            (derase
              [("populationType", "CriminalIncidents"), ("victimType", "Person"),
                ("biasMotivation", "religion")] "victimType")
            (Config.mk [] []
              [DpvRule.mk "biasMotivation" "victimType" (some "Person")])) ∧
      (updateStatvarDcids
          [[("populationType", "CriminalIncidents"), ("victimType", "Person"),
            ("biasMotivation", "religion")]]
          (Config.mk [] []
            [DpvRule.mk "biasMotivation" "victimType" (some "Person")])).map nodeOf =
        (updateStatvarDcids
          [derase
            [("populationType", "CriminalIncidents"), ("victimType", "Person"),
              ("biasMotivation", "religion")] "victimType"]
          (Config.mk [] []
            [DpvRule.mk "biasMotivation" "victimType" (some "Person")])).map nodeOf) :=
  ⟨by decide, by decide, by decide,
    dpvExclusion_amended
      (Config.mk [] [] [DpvRule.mk "biasMotivation" "victimType" (some "Person")])
      [("populationType", "CriminalIncidents"), ("victimType", "Person"),
        ("biasMotivation", "religion")]
      "biasMotivation" "victimType" "Person"
      (by decide) (by decide) (by decide) (by decide)⟩

/-! ### Claim C10: absent dependent properties in _get_dpv -/

/-- C10: for a dpv rule whose controlling property is present in the
statvar but whose dependent property is absent, _get_dpv reads the absent
property as None, so the rule excludes the dependent property exactly when
its required value is null; a rule with a non-null required value never
excludes an absent dependent property. -/
theorem getDpv_absentProp_iff (pt pvs : List (String × Dict)) (r : DpvRule)
    (s : Dict) (hc : dcontains s r.cprop = true)
    (ha : alookup s r.prop = none) :
    r.prop ∈ getDpv s (Config.mk pt pvs [r]) ↔ r.val = none := by
  cases hv : r.val with
  | none => simp [getDpv, List.filter_cons, hc, ha, hv]
  | some v => simp [getDpv, List.filter_cons, hc, ha, hv]

theorem getDpv_absentProp_iff_witness :
    dcontains [("victimType", "Person")] "victimType" = true ∧
    alookup [("victimType", "Person")] "offenderType" = none ∧
    (("offenderType" ∈
        getDpv [("victimType", "Person")]
          (Config.mk [] [] [DpvRule.mk "victimType" "offenderType" none])) ↔
      (DpvRule.mk "victimType" "offenderType" none).val = none) :=
  ⟨by decide, by decide,
    getDpv_absentProp_iff [] [] (DpvRule.mk "victimType" "offenderType" none)
      [("victimType", "Person")] (by decide) (by decide)⟩

/-! ### Claim C5: observation identifiers match the metadata headers -/

theorem writeOutputCsv_eq_file (config : Config) (fieldnames : List String)
    (rows : List Dict) (cols : List String)
    (hfc : factColumnsOf fieldnames = some cols)
    (h : ∀ crime ∈ rows, rowOk config cols crime = true) :
    writeOutputCsv fieldnames rows config =
      some (rows.flatMap (expectedRowObs config cols),
            rows.flatMap (expectedRowSvs config cols)) := by
  rw [factColumnsOf] at hfc
  cases hc1 : pyRemove fieldnames "bias motivation" with
  | none => rw [hc1] at hfc; simp at hfc
  | some cols1 =>
    rw [hc1] at hfc
    simp only [Option.some_bind] at hfc
    exact writeOutputCsv_eq fieldnames rows config cols1 cols hc1 hfc h

theorem createCsvMcf_eq (config : Config)
    (files : List (List String × List Dict))
    (h : ∀ fl ∈ files, fileOk config fl = true) :
    createCsvMcf files config =
      some (files.flatMap (expectedFileObs config),
            files.flatMap (expectedFileSvs config)) := by
  induction files with
  | nil => simp [createCsvMcf]
  | cons fl rest ih =>
    obtain ⟨fieldnames, rows⟩ := fl
    have hf := h (fieldnames, rows) (by simp)
    cases hfc : factColumnsOf fieldnames with
    | none => simp [fileOk, hfc] at hf
    | some cols =>
      simp only [fileOk, hfc, List.all_eq_true] at hf
      have hw := writeOutputCsv_eq_file config fieldnames rows cols hfc hf
      simp [createCsvMcf, hw, ih (fun u hu => h u (by simp [hu])),
        expectedFileObs, expectedFileSvs, hfc]

theorem node_isSome_expectedRowSvs (config : Config) (cols : List String)
    (crime : Dict) (sv : Dict)
    (hsv : sv ∈ expectedRowSvs config cols crime) :
    (alookup sv "Node").isSome = true := by
  rw [expectedRowSvs] at hsv
  obtain ⟨c, _, rfl⟩ := List.mem_map.mp hsv
  simp [resolvedStatvar, alookup_dinsert_self]

theorem node_isSome_files (config : Config)
    (files : List (List String × List Dict)) (sv : Dict)
    (hsv : sv ∈ files.flatMap (expectedFileSvs config)) :
    (alookup sv "Node").isSome = true := by
  obtain ⟨fl, _, hsv2⟩ := List.mem_flatMap.mp hsv
  rw [expectedFileSvs] at hsv2
  obtain ⟨crime, _, hsv3⟩ := List.mem_flatMap.mp hsv2
  exact node_isSome_expectedRowSvs _ _ _ _ hsv3

theorem files_obs_statVar_eq (config : Config)
    (files : List (List String × List Dict)) :
    (files.flatMap (expectedFileObs config)).map OutRow.statVar =
      (files.flatMap (expectedFileSvs config)).map nodeOf := by
  induction files with
  | nil => rfl
  | cons fl rest ih =>
    simp only [List.flatMap_cons, List.map_append, ih, expectedFileObs,
      expectedFileSvs, flatMap_obs_statVar_eq]

/-- C5: for a full pipeline run over the per-year CSV files, the set of
identifiers in the StatVar column of the cleaned CSV equals the set of
identifiers of the Node header lines of the metadata file _create_mcf
builds from the accumulated statvar list. -/
theorem statvarIdsMatchMcf (config : Config)
    (files : List (List String × List Dict))
    (h : ∀ fl ∈ files, fileOk config fl = true) :
    createCsvMcf files config =
      some (files.flatMap (expectedFileObs config),
            files.flatMap (expectedFileSvs config)) ∧
    createMcf (files.flatMap (expectedFileSvs config)) =
      some (mcfSpec (files.flatMap (expectedFileSvs config))) ∧
    ((files.flatMap (expectedFileObs config)).map OutRow.statVar).toFinset =
      ((firstSeenByNode [] (files.flatMap (expectedFileSvs config))).map
        nodeOf).toFinset := by
  refine ⟨createCsvMcf_eq config files h, ?_, ?_⟩
  · rw [createMcf, createMcfGo_eq_spec _ [] ""
      (fun sv hsv => node_isSome_files config files sv hsv), mcfSpec]
    simp
  · refine Finset.ext ?_
    intro d
    rw [List.mem_toFinset, List.mem_toFinset, files_obs_statVar_eq,
      map_nodeOf_firstSeenByNode, mem_dedupFirstSeen]
    simp

theorem statvarIdsMatchMcf_witness :
    (fileOk sampleConfig (["Year", "bias motivation", "colA"],
      [sampleRow, sampleRow2]) = true) ∧
    (createCsvMcf [(["Year", "bias motivation", "colA"],
        [sampleRow, sampleRow2])] sampleConfig =
      some (([(["Year", "bias motivation", "colA"],
              [sampleRow, sampleRow2])]).flatMap
          (expectedFileObs sampleConfig),
        ([(["Year", "bias motivation", "colA"],
              [sampleRow, sampleRow2])]).flatMap
          (expectedFileSvs sampleConfig)) ∧
    createMcf (([(["Year", "bias motivation", "colA"],
          [sampleRow, sampleRow2])]).flatMap (expectedFileSvs sampleConfig)) =
      some (mcfSpec (([(["Year", "bias motivation", "colA"],
          [sampleRow, sampleRow2])]).flatMap (expectedFileSvs sampleConfig))) ∧
    ((([(["Year", "bias motivation", "colA"],
            [sampleRow, sampleRow2])]).flatMap
        (expectedFileObs sampleConfig)).map OutRow.statVar).toFinset =
      ((firstSeenByNode []
          (([(["Year", "bias motivation", "colA"],
              [sampleRow, sampleRow2])]).flatMap
            (expectedFileSvs sampleConfig))).map nodeOf).toFinset) :=
  ⟨by decide,
    statvarIdsMatchMcf sampleConfig
      [(["Year", "bias motivation", "colA"], [sampleRow, sampleRow2])]
      (by decide)⟩

end HateCrime
